import Mathlib

/-!
Shallow embedding of the cms-database-sdk client (src/src/index.ts and the
fuller variant src/unnamed/part_002, which implements the item, field and
user operations; src/src/CMSError.ts; the interface files).

JavaScript runtime values are modelled by `JsValue`; JS objects are
association lists in insertion order.  The HTTP transport is an oracle
`Transport : Request → TResult`; axios resolution/rejection is modelled by
`TResult.success` (2xx with decoded body) and `TResult.failure` (non-2xx
with status and decoded error body attached, as the spec's transport
collaborator guarantees).  Each SDK operation becomes a pure function from
the client, the transport and its arguments to an `OpRun`: the settled
promise value, the list of requests handed to the transport, and the list
of error-first callback invocations performed.
-/

namespace CMSSDK

/-- A JavaScript runtime value (decoded JSON plus `undefined`). -/
inductive JsValue where
  | null
  | undef
  | bool (b : Bool)
  | num (n : Int)
  | str (s : String)
  | arr (elems : List JsValue)
  | obj (entries : List (String × JsValue))
  deriving Repr

/-- JS falsiness: `!v` is true exactly on these values (`NaN` is not
representable here; `document.all` does not occur). Objects and arrays,
including empty ones, are truthy. -/
def jsFalsy : JsValue → Bool
  | JsValue.null => true
  | JsValue.undef => true
  | JsValue.bool b => !b
  | JsValue.num n => n == 0
  | JsValue.str s => s == ""
  | JsValue.arr _ => false
  | JsValue.obj _ => false

/-- Property access `o.k` on a decoded JSON object: the first binding of the
key, or `undefined` when the key is absent. -/
def jsGet : List (String × JsValue) → String → JsValue
  | [], _ => JsValue.undef
  | (k, v) :: rest, key => if k == key then v else jsGet rest key

/-- Rest destructuring `{status, ...data} = o`: every binding of the key is
dropped (a decoded JSON object binds each key once). -/
def jsErase : List (String × JsValue) → String → List (String × JsValue)
  | [], _ => []
  | (k, v) :: rest, key =>
      if k == key then jsErase rest key else (k, v) :: jsErase rest key

/-- JS property assignment on an object literal: overwrite in place when the
key exists, append otherwise. -/
def jsUpsert : List (String × JsValue) → String → JsValue →
    List (String × JsValue)
  | [], key, v => [(key, v)]
  | (k, w) :: rest, key, v =>
      if k == key then (k, v) :: rest else (k, w) :: jsUpsert rest key v

/-- Object spread `{...base-literal, ...extra}`: each property of `extra` is
assigned onto the accumulated object in order. -/
def jsSpread (base extra : List (String × JsValue)) :
    List (String × JsValue) :=
  extra.foldl (fun acc kv => jsUpsert acc kv.1 kv.2) base

/-- src/src/CMSError.ts: `CMSError` carries a message. -/
structure CMSError where
  message : String
  deriving Repr, DecidableEq

/-- src/src/CMSError.ts: `buildRequiredArgError`. -/
def buildRequiredArgError (name : String) : CMSError :=
  ⟨"Argument '" ++ name ++ "' is required but was not present"⟩

/-- The four fixed headers computed at construction. -/
structure HeaderSet where
  accept : String
  authorization : String
  acceptVersion : String
  contentType : String
  deriving Repr, DecidableEq

def mkHeaders (token version : String) : HeaderSet :=
  { accept := "application/json"
    authorization := "Bearer " ++ token
    acceptVersion := version
    contentType := "application/json" }

def DEFAULT_ENDPOINT : String := "http://localhost:5000/api/v1"

/-- The immutable client configuration (class `MyCMS` state). -/
structure Client where
  endpoint : String
  token : String
  version : String
  headers : HeaderSet
  deriving Repr

/-- `new MyCMS({token, version})`: missing or empty token throws
`buildRequiredArgError("token")`; the version defaults to `"1.0.0"`. -/
def mkClient (token : Option String) (version : Option String) :
    Except CMSError Client :=
  let v := version.getD "1.0.0"
  match token with
  | none => Except.error (buildRequiredArgError "token")
  | some t =>
    if t == "" then Except.error (buildRequiredArgError "token")
    else Except.ok
      { endpoint := DEFAULT_ENDPOINT, token := t, version := v,
        headers := mkHeaders t v }

inductive Method where
  | GET | POST | PUT | PATCH | DELETE
  deriving Repr, DecidableEq

/-- The axios request config assembled by `authenticatedFetch`: absolute
url, method, the fixed headers, the request body (`data`) and the query
parameters (`params`). -/
structure Request where
  url : String
  method : Method
  headers : HeaderSet
  data : JsValue
  params : List (String × JsValue)
  deriving Repr

/-- The decoded error attached to a failed transport exchange
(`err.response`): HTTP status and the decoded error body. -/
structure ErrBody where
  message : String
  extra : List (String × JsValue)
  deriving Repr

structure ErrResponse where
  status : Nat
  data : ErrBody
  deriving Repr

/-- A transport exchange outcome: 2xx with decoded body, or non-2xx with
the decoded error body attached. -/
inductive TResult where
  | success (body : List (String × JsValue))
  | failure (e : ErrResponse)

/-- The transport collaborator (axios), as an oracle. -/
def Transport : Type := Request → TResult

/-- What a settled operation promise holds: a resolved JS value, or a
rejection (a client-side `CMSError`, a propagated decoded error body, or
the raw axios error propagated by an uncaught transport failure). -/
inductive RejectValue where
  | cms (e : CMSError)
  | body (b : ErrBody)
  | axiosErr (e : ErrResponse)
  deriving Repr

inductive Settled where
  | resolved (v : JsValue)
  | rejected (r : RejectValue)
  deriving Repr

/-- One error-first callback invocation `(err, data)`. -/
structure CBCall where
  err : Option ErrBody
  data : JsValue
  deriving Repr

/-- A finished operation: the settled promise, the requests handed to the
transport, and the callback invocations performed. -/
structure OpRun where
  result : Settled
  requests : List Request
  callbacks : List CBCall
  deriving Repr

/-- `tryCallback(callback, err, data)`: invoke the callback once when one
was provided. -/
def tryCallback (cb : Bool) (err : Option ErrBody) (data : JsValue) :
    List CBCall :=
  if cb then [⟨err, data⟩] else []

/-- interfaces/queryInterfaces.ts `QueryFeatures`. -/
structure QueryFeatures where
  page : Option Int
  limit : Option Int
  sort : Option String
  fields : Option (List String)
  deriving Repr

/-- interfaces/queryInterfaces.ts `FinalQuery`: `fields` collapsed to a
string. -/
structure FinalQuery where
  page : Option Int
  limit : Option Int
  sort : Option String
  fields : Option String
  deriving Repr, DecidableEq

/-- `createFinalQuery`: `{fields, ...rest}` destructuring, then — since any
present `fields` value is an array, and arrays (even empty) are truthy —
`finalQuery.fields = fields.join(",")` exactly when `fields` is present. -/
def createFinalQuery (query : QueryFeatures) : FinalQuery :=
  match query.fields with
  | some fs =>
      { page := query.page, limit := query.limit, sort := query.sort,
        fields := some (String.intercalate "," fs) }
  | none =>
      { page := query.page, limit := query.limit, sort := query.sort,
        fields := none }

/-- The JS object a `FinalQuery` is, in declaration order, with absent
options contributing no key. -/
def finalQueryToObj (q : FinalQuery) : List (String × JsValue) :=
  (match q.page with | some p => [("page", JsValue.num p)] | none => []) ++
  (match q.limit with | some l => [("limit", JsValue.num l)] | none => []) ++
  (match q.sort with | some s => [("sort", JsValue.str s)] | none => []) ++
  (match q.fields with | some f => [("fields", JsValue.str f)] | none => [])

/-- interfaces/collectionInterfaces.ts `CollectionDataFields`: a field of a
collection-creation request (`type` and `name` required, the rest
optional; `validations` is a constraint bag kept as a raw JS value). -/
structure CollectionDataField where
  type : String
  name : String
  required : Option Bool
  validations : Option JsValue
  helpText : Option String
  primaryName : Option Bool
  primarySlug : Option Bool
  deriving Repr

/-- A key contributed by an optional interface property: absent properties
contribute no key. -/
def optEntry (key : String) : Option JsValue → List (String × JsValue)
  | some v => [(key, v)]
  | none => []

/-- The JS object a `CollectionDataFields` value is, keys in declaration
order. -/
def CollectionDataField.toEntries (f : CollectionDataField) :
    List (String × JsValue) :=
  [("type", JsValue.str f.type), ("name", JsValue.str f.name)] ++
  optEntry "required" (f.required.map JsValue.bool) ++
  optEntry "validations" f.validations ++
  optEntry "helpText" (f.helpText.map JsValue.str) ++
  optEntry "primaryName" (f.primaryName.map JsValue.bool) ++
  optEntry "primarySlug" (f.primarySlug.map JsValue.bool)

/-- interfaces/collectionInterfaces.ts `CollectionData`: `name` required,
`slug` optional, `fields` required. -/
structure CollectionData where
  name : String
  slug : Option String
  fields : List CollectionDataField
  deriving Repr

/-- The JS object a `CollectionData` value is, keys in declaration order. -/
def CollectionData.toEntries (d : CollectionData) :
    List (String × JsValue) :=
  [("name", JsValue.str d.name)] ++
  optEntry "slug" (d.slug.map JsValue.str) ++
  [("fields", JsValue.arr (d.fields.map CollectionDataField.toEntries |>.map JsValue.obj))]

namespace MyCMS

/-- `authenticatedFetch`: the axios config for a call. -/
def authenticatedFetch (c : Client) (method : Method) (path : String)
    (data : JsValue) (query : List (String × JsValue)) : Request :=
  { url := c.endpoint ++ path, method := method, headers := c.headers,
    data := data, params := query }

/-- `private get(path, query)`: GET with `false` in the data slot. -/
def get (c : Client) (path : String) (query : List (String × JsValue)) :
    Request :=
  authenticatedFetch c Method.GET path (JsValue.bool false) query

def post (c : Client) (path : String) (data : JsValue)
    (query : List (String × JsValue)) : Request :=
  authenticatedFetch c Method.POST path data query

def put (c : Client) (path : String) (data : JsValue)
    (query : List (String × JsValue)) : Request :=
  authenticatedFetch c Method.PUT path data query

def patch (c : Client) (path : String) (data : JsValue)
    (query : List (String × JsValue)) : Request :=
  authenticatedFetch c Method.PATCH path data query

/-- `private delete(path, query)` forwards `query` in the DATA position of
`authenticatedFetch`, whose query parameter is left at its `{}` default. -/
def delete (c : Client) (path : String)
    (query : List (String × JsValue)) : Request :=
  authenticatedFetch c Method.DELETE path (JsValue.obj query) []

/-- `getDatabases(query)`: list operation, no catch — a transport failure
rejects with the raw axios error. -/
def getDatabases (c : Client) (t : Transport) (query : QueryFeatures) :
    OpRun :=
  let finalQuery := createFinalQuery query
  let req := get c "/databases" (finalQueryToObj finalQuery)
  match t req with
  | TResult.success body =>
      ⟨Settled.resolved (jsGet body "databases"), [req], []⟩
  | TResult.failure e =>
      ⟨Settled.rejected (RejectValue.axiosErr e), [req], []⟩

/-- `getDatabaseById(database_id)`: lookup policy — any failure resolves to
`null`. -/
def getDatabaseById (c : Client) (t : Transport) (database_id : String) :
    OpRun :=
  if database_id == "" then
    ⟨Settled.rejected (RejectValue.cms (buildRequiredArgError "database_id")),
      [], []⟩
  else
    let req := get c ("/databases/" ++ database_id) []
    match t req with
    | TResult.success body =>
        ⟨Settled.resolved (jsGet body "database"), [req], []⟩
    | TResult.failure _ =>
        ⟨Settled.resolved JsValue.null, [req], []⟩

/-- `createDatabase(name)`: create policy — any failure rejects with the
decoded error body. -/
def createDatabase (c : Client) (t : Transport) (name : String) : OpRun :=
  if name == "" then
    ⟨Settled.rejected (RejectValue.cms (buildRequiredArgError "name")),
      [], []⟩
  else
    let req := post c "/databases" (JsValue.obj [("name", JsValue.str name)]) []
    match t req with
    | TResult.success body =>
        ⟨Settled.resolved (jsGet body "database"), [req], []⟩
    | TResult.failure e =>
        ⟨Settled.rejected (RejectValue.body e.data), [req], []⟩

/-- `deleteDatabaseById(database_id)`: mutation policy with marker
`"Invalid database"`; on success `{status, ...data}` destructuring. -/
def deleteDatabaseById (c : Client) (t : Transport) (database_id : String) :
    OpRun :=
  if database_id == "" then
    ⟨Settled.rejected (RejectValue.cms (buildRequiredArgError "database_id")),
      [], []⟩
  else
    let req := delete c ("/databases/" ++ database_id) []
    match t req with
    | TResult.success body =>
        ⟨Settled.resolved (JsValue.obj (jsErase body "status")), [req], []⟩
    | TResult.failure e =>
        if e.status == 404 || e.data.message.startsWith "Invalid database" then
          ⟨Settled.resolved JsValue.null, [req], []⟩
        else
          ⟨Settled.rejected (RejectValue.body e.data), [req], []⟩

/-- `shareDatabase(database_id, email, role)`: share policy — both outcomes
resolve to a `{shared, message}` object. -/
def shareDatabase (c : Client) (t : Transport)
    (database_id email role : String) : OpRun :=
  if database_id == "" then
    ⟨Settled.rejected (RejectValue.cms (buildRequiredArgError "database_id")),
      [], []⟩
  else if email == "" then
    ⟨Settled.rejected (RejectValue.cms (buildRequiredArgError "email")),
      [], []⟩
  else if role == "" then
    ⟨Settled.rejected (RejectValue.cms (buildRequiredArgError "role")),
      [], []⟩
  else
    let req := post c ("/databases/" ++ database_id ++ "/share")
      (JsValue.obj [("email", JsValue.str email), ("role", JsValue.str role)]) []
    match t req with
    | TResult.success body =>
        ⟨Settled.resolved (JsValue.obj
          [("shared", JsValue.bool true), ("message", jsGet body "message")]),
          [req], []⟩
    | TResult.failure e =>
        ⟨Settled.resolved (JsValue.obj
          [("shared", JsValue.bool false),
           ("message", JsValue.str e.data.message)]),
          [req], []⟩

/-- `updateDatabaseById(database_id, name)`: mutation policy with marker
`"Invalid database"`. -/
def updateDatabaseById (c : Client) (t : Transport)
    (database_id name : String) : OpRun :=
  if database_id == "" then
    ⟨Settled.rejected (RejectValue.cms (buildRequiredArgError "database_id")),
      [], []⟩
  else if name == "" then
    ⟨Settled.rejected (RejectValue.cms (buildRequiredArgError "name")),
      [], []⟩
  else
    let req := patch c ("/databases/" ++ database_id)
      (JsValue.obj [("name", JsValue.str name)]) []
    match t req with
    | TResult.success body =>
        ⟨Settled.resolved (jsGet body "database"), [req], []⟩
    | TResult.failure e =>
        if e.status == 404 || e.data.message.startsWith "Invalid database" then
          ⟨Settled.resolved JsValue.null, [req], []⟩
        else
          ⟨Settled.rejected (RejectValue.body e.data), [req], []⟩

/-- `getCollectionsByDatabaseId(database_id)`: list operation, no catch. -/
def getCollectionsByDatabaseId (c : Client) (t : Transport)
    (database_id : String) : OpRun :=
  if database_id == "" then
    ⟨Settled.rejected (RejectValue.cms (buildRequiredArgError "database_id")),
      [], []⟩
  else
    let req := get c ("/databases/" ++ database_id ++ "/collections") []
    match t req with
    | TResult.success body =>
        ⟨Settled.resolved (jsGet body "collections"), [req], []⟩
    | TResult.failure e =>
        ⟨Settled.rejected (RejectValue.axiosErr e), [req], []⟩

/-- `getCollectionById(collection_id)`: lookup policy. -/
def getCollectionById (c : Client) (t : Transport) (collection_id : String) :
    OpRun :=
  if collection_id == "" then
    ⟨Settled.rejected
      (RejectValue.cms (buildRequiredArgError "collection_id")), [], []⟩
  else
    let req := get c ("/collections/" ++ collection_id) []
    match t req with
    | TResult.success body =>
        ⟨Settled.resolved (jsGet body "collection"), [req], []⟩
    | TResult.failure _ =>
        ⟨Settled.resolved JsValue.null, [req], []⟩

/-- `createCollectionByDatabaseId(database_id, data)`: POST `/collections`
with body `{database: database_id, ...data}` (object spread), create
policy on failure.  A missing (`undefined`/`null`) `data` argument is
modelled by `none`. -/
def createCollectionByDatabaseId (c : Client) (t : Transport)
    (database_id : String) (data : Option CollectionData) : OpRun :=
  if database_id == "" then
    ⟨Settled.rejected (RejectValue.cms (buildRequiredArgError "database_id")),
      [], []⟩
  else
    match data with
    | none =>
        ⟨Settled.rejected (RejectValue.cms (buildRequiredArgError "data")),
          [], []⟩
    | some d =>
      let req := post c "/collections"
        (JsValue.obj (jsSpread [("database", JsValue.str database_id)]
          d.toEntries)) []
      match t req with
      | TResult.success body =>
          ⟨Settled.resolved (jsGet body "collection"), [req], []⟩
      | TResult.failure e =>
          ⟨Settled.rejected (RejectValue.body e.data), [req], []⟩

/-- `updateCollectionById(collection_id, update)`: mutation policy with
marker `"Invalid _id"`; `update` is an untyped `UpdateQuery` value. -/
def updateCollectionById (c : Client) (t : Transport)
    (collection_id : String) (update : JsValue) : OpRun :=
  if collection_id == "" then
    ⟨Settled.rejected
      (RejectValue.cms (buildRequiredArgError "collection_id")), [], []⟩
  else if jsFalsy update then
    ⟨Settled.rejected (RejectValue.cms (buildRequiredArgError "update")),
      [], []⟩
  else
    let req := patch c ("/collections/" ++ collection_id) update []
    match t req with
    | TResult.success body =>
        ⟨Settled.resolved (jsGet body "collection"), [req], []⟩
    | TResult.failure e =>
        if e.status == 404 || e.data.message.startsWith "Invalid _id" then
          ⟨Settled.resolved JsValue.null, [req], []⟩
        else
          ⟨Settled.rejected (RejectValue.body e.data), [req], []⟩

/-- `deleteCollectionById(collection_id)`: mutation policy with marker
`"Invalid _id"`; on success `{status, ...data}` destructuring. -/
def deleteCollectionById (c : Client) (t : Transport)
    (collection_id : String) : OpRun :=
  if collection_id == "" then
    ⟨Settled.rejected
      (RejectValue.cms (buildRequiredArgError "collection_id")), [], []⟩
  else
    let req := delete c ("/collections/" ++ collection_id) []
    match t req with
    | TResult.success body =>
        ⟨Settled.resolved (JsValue.obj (jsErase body "status")), [req], []⟩
    | TResult.failure e =>
        if e.status == 404 || e.data.message.startsWith "Invalid _id" then
          ⟨Settled.resolved JsValue.null, [req], []⟩
        else
          ⟨Settled.rejected (RejectValue.body e.data), [req], []⟩

/-- `getItemsByCollectionId(collection_id, query)` (part_002): the final
query is computed before the argument check; list operation, no catch. -/
def getItemsByCollectionId (c : Client) (t : Transport)
    (collection_id : String) (query : QueryFeatures) : OpRun :=
  let finalQuery := createFinalQuery query
  if collection_id == "" then
    ⟨Settled.rejected
      (RejectValue.cms (buildRequiredArgError "collection_id")), [], []⟩
  else
    let req := get c ("/collections/" ++ collection_id ++ "/items")
      (finalQueryToObj finalQuery)
    match t req with
    | TResult.success body =>
        ⟨Settled.resolved (jsGet body "items"), [req], []⟩
    | TResult.failure e =>
        ⟨Settled.rejected (RejectValue.axiosErr e), [req], []⟩

/-- `getItem(collection_id, item_id)`: lookup policy. -/
def getItem (c : Client) (t : Transport) (collection_id item_id : String) :
    OpRun :=
  if collection_id == "" then
    ⟨Settled.rejected
      (RejectValue.cms (buildRequiredArgError "collection_id")), [], []⟩
  else if item_id == "" then
    ⟨Settled.rejected (RejectValue.cms (buildRequiredArgError "item_id")),
      [], []⟩
  else
    let req := get c ("/collections/" ++ collection_id ++ "/items/" ++ item_id)
      []
    match t req with
    | TResult.success body =>
        ⟨Settled.resolved (jsGet body "item"), [req], []⟩
    | TResult.failure _ =>
        ⟨Settled.resolved JsValue.null, [req], []⟩

/-- `createItem(collection_id, data)` (part_002): create policy; the item
field map is untyped. -/
def createItem (c : Client) (t : Transport) (collection_id : String)
    (data : JsValue) : OpRun :=
  if collection_id == "" then
    ⟨Settled.rejected
      (RejectValue.cms (buildRequiredArgError "collection_id")), [], []⟩
  else if jsFalsy data then
    ⟨Settled.rejected (RejectValue.cms (buildRequiredArgError "data")),
      [], []⟩
  else
    let req := post c ("/collections/" ++ collection_id ++ "/items") data []
    match t req with
    | TResult.success body =>
        ⟨Settled.resolved (jsGet body "item"), [req], []⟩
    | TResult.failure e =>
        ⟨Settled.rejected (RejectValue.body e.data), [req], []⟩

/-- `patchItemById(collection_id, item_id, fields)` (part_002): mutation
policy with marker `"Invalid _id"`. -/
def patchItemById (c : Client) (t : Transport)
    (collection_id item_id : String) (fields : JsValue) : OpRun :=
  if collection_id == "" then
    ⟨Settled.rejected
      (RejectValue.cms (buildRequiredArgError "collection_id")), [], []⟩
  else if item_id == "" then
    ⟨Settled.rejected (RejectValue.cms (buildRequiredArgError "item_id")),
      [], []⟩
  else if jsFalsy fields then
    ⟨Settled.rejected (RejectValue.cms (buildRequiredArgError "fields")),
      [], []⟩
  else
    let req := patch c
      ("/collections/" ++ collection_id ++ "/items/" ++ item_id) fields []
    match t req with
    | TResult.success body =>
        ⟨Settled.resolved (jsGet body "item"), [req], []⟩
    | TResult.failure e =>
        if e.status == 404 || e.data.message.startsWith "Invalid _id" then
          ⟨Settled.resolved JsValue.null, [req], []⟩
        else
          ⟨Settled.rejected (RejectValue.body e.data), [req], []⟩

/-- `putItemById(collection_id, item_id, fields)` (part_002): mutation
policy with marker `"Invalid _id"`. -/
def putItemById (c : Client) (t : Transport)
    (collection_id item_id : String) (fields : JsValue) : OpRun :=
  if collection_id == "" then
    ⟨Settled.rejected
      (RejectValue.cms (buildRequiredArgError "collection_id")), [], []⟩
  else if item_id == "" then
    ⟨Settled.rejected (RejectValue.cms (buildRequiredArgError "item_id")),
      [], []⟩
  else if jsFalsy fields then
    ⟨Settled.rejected (RejectValue.cms (buildRequiredArgError "fields")),
      [], []⟩
  else
    let req := put c
      ("/collections/" ++ collection_id ++ "/items/" ++ item_id) fields []
    match t req with
    | TResult.success body =>
        ⟨Settled.resolved (jsGet body "item"), [req], []⟩
    | TResult.failure e =>
        if e.status == 404 || e.data.message.startsWith "Invalid _id" then
          ⟨Settled.resolved JsValue.null, [req], []⟩
        else
          ⟨Settled.rejected (RejectValue.body e.data), [req], []⟩

/-- `deleteItemById(collection_id, item_id)` (part_002): mutation policy
with marker `"Invalid _id"`; on success `{status, ...data}`
destructuring. -/
def deleteItemById (c : Client) (t : Transport)
    (collection_id item_id : String) : OpRun :=
  if collection_id == "" then
    ⟨Settled.rejected
      (RejectValue.cms (buildRequiredArgError "collection_id")), [], []⟩
  else if item_id == "" then
    ⟨Settled.rejected (RejectValue.cms (buildRequiredArgError "item_id")),
      [], []⟩
  else
    let req := delete c
      ("/collections/" ++ collection_id ++ "/items/" ++ item_id) []
    match t req with
    | TResult.success body =>
        ⟨Settled.resolved (JsValue.obj (jsErase body "status")), [req], []⟩
    | TResult.failure e =>
        if e.status == 404 || e.data.message.startsWith "Invalid _id" then
          ⟨Settled.resolved JsValue.null, [req], []⟩
        else
          ⟨Settled.rejected (RejectValue.body e.data), [req], []⟩

/-- `getCollectionFields(collection_id, callback?)` (part_002): despite
being a list operation it catches every failure, invokes the callback with
`(null, null)` and resolves to `null`. -/
def getCollectionFields (c : Client) (t : Transport)
    (collection_id : String) (cb : Bool) : OpRun :=
  if collection_id == "" then
    ⟨Settled.rejected
      (RejectValue.cms (buildRequiredArgError "collection_id")), [], []⟩
  else
    let req := get c ("/collections/" ++ collection_id ++ "/fields") []
    match t req with
    | TResult.success body =>
        let fields := jsGet body "fields"
        ⟨Settled.resolved fields, [req], tryCallback cb none fields⟩
    | TResult.failure _ =>
        ⟨Settled.resolved JsValue.null, [req],
          tryCallback cb none JsValue.null⟩

/-- `getCollectionField(collection_id, field_id, callback?)` (part_002):
lookup policy; on failure the callback receives `(null, null)`. -/
def getCollectionField (c : Client) (t : Transport)
    (collection_id field_id : String) (cb : Bool) : OpRun :=
  if collection_id == "" then
    ⟨Settled.rejected
      (RejectValue.cms (buildRequiredArgError "collection_id")), [], []⟩
  else if field_id == "" then
    ⟨Settled.rejected (RejectValue.cms (buildRequiredArgError "field_id")),
      [], []⟩
  else
    let req := get c
      ("/collections/" ++ collection_id ++ "/fields/" ++ field_id) []
    match t req with
    | TResult.success body =>
        let field := jsGet body "field"
        ⟨Settled.resolved field, [req], tryCallback cb none field⟩
    | TResult.failure _ =>
        ⟨Settled.resolved JsValue.null, [req],
          tryCallback cb none JsValue.null⟩

/-- `createCollectionField(collection_id, data, callback?)` (part_002):
create policy; note the trailing slash in the path.  The field data is
untyped here. -/
def createCollectionField (c : Client) (t : Transport)
    (collection_id : String) (data : JsValue) (cb : Bool) : OpRun :=
  if collection_id == "" then
    ⟨Settled.rejected
      (RejectValue.cms (buildRequiredArgError "collection_id")), [], []⟩
  else if jsFalsy data then
    ⟨Settled.rejected (RejectValue.cms (buildRequiredArgError "data")),
      [], []⟩
  else
    let req := post c ("/collections/" ++ collection_id ++ "/fields/") data []
    match t req with
    | TResult.success body =>
        let field := jsGet body "field"
        ⟨Settled.resolved field, [req], tryCallback cb none field⟩
    | TResult.failure e =>
        ⟨Settled.rejected (RejectValue.body e.data), [req],
          tryCallback cb (some e.data) JsValue.null⟩

/-- `updateCollectionField(collection_id, field_id, fields, callback?)`
(part_002): mutation policy with marker `"Invalid _id"`; the not-found
branch invokes the callback with `(null, null)`, the propagating branch
with `(errorBody, null)`. -/
def updateCollectionField (c : Client) (t : Transport)
    (collection_id field_id : String) (fields : JsValue) (cb : Bool) :
    OpRun :=
  if collection_id == "" then
    ⟨Settled.rejected
      (RejectValue.cms (buildRequiredArgError "collection_id")), [], []⟩
  else if field_id == "" then
    ⟨Settled.rejected (RejectValue.cms (buildRequiredArgError "field_id")),
      [], []⟩
  else if jsFalsy fields then
    ⟨Settled.rejected (RejectValue.cms (buildRequiredArgError "fields")),
      [], []⟩
  else
    let req := patch c
      ("/collections/" ++ collection_id ++ "/fields/" ++ field_id) fields []
    match t req with
    | TResult.success body =>
        let field := jsGet body "field"
        ⟨Settled.resolved field, [req], tryCallback cb none field⟩
    | TResult.failure e =>
        if e.status == 404 || e.data.message.startsWith "Invalid _id" then
          ⟨Settled.resolved JsValue.null, [req],
            tryCallback cb none JsValue.null⟩
        else
          ⟨Settled.rejected (RejectValue.body e.data), [req],
            tryCallback cb (some e.data) JsValue.null⟩

/-- `deleteCollectionField(collection_id, field_id, callback?)` (part_002):
mutation policy with marker `"Invalid _id"`; on success `{status, ...data}`
destructuring, handed to the callback as well. -/
def deleteCollectionField (c : Client) (t : Transport)
    (collection_id field_id : String) (cb : Bool) : OpRun :=
  if collection_id == "" then
    ⟨Settled.rejected
      (RejectValue.cms (buildRequiredArgError "collection_id")), [], []⟩
  else if field_id == "" then
    ⟨Settled.rejected (RejectValue.cms (buildRequiredArgError "field_id")),
      [], []⟩
  else
    let req := delete c
      ("/collections/" ++ collection_id ++ "/fields/" ++ field_id) []
    match t req with
    | TResult.success body =>
        let data := JsValue.obj (jsErase body "status")
        ⟨Settled.resolved data, [req], tryCallback cb none data⟩
    | TResult.failure e =>
        if e.status == 404 || e.data.message.startsWith "Invalid _id" then
          ⟨Settled.resolved JsValue.null, [req],
            tryCallback cb none JsValue.null⟩
        else
          ⟨Settled.rejected (RejectValue.body e.data), [req],
            tryCallback cb (some e.data) JsValue.null⟩

/-- `getMe(callback?)` (part_002): no required arguments; create-style
propagation on failure, callback on both branches. -/
def getMe (c : Client) (t : Transport) (cb : Bool) : OpRun :=
  let req := get c "/users/me" []
  match t req with
  | TResult.success body =>
      let user := jsGet body "user"
      ⟨Settled.resolved user, [req], tryCallback cb none user⟩
  | TResult.failure e =>
      ⟨Settled.rejected (RejectValue.body e.data), [req],
        tryCallback cb (some e.data) JsValue.null⟩

end MyCMS

/-- The mutation policy's outcome contract for one settled result: `null`
exactly on 404-or-marker failures, the raw decoded error body on every
other failure. -/
abbrev MutationNullIff (r : Settled) (marker : String) (e : ErrResponse) :
    Prop :=
  (r = Settled.resolved JsValue.null ↔
    (e.status == 404 || e.data.message.startsWith marker) = true) ∧
  ((e.status == 404 || e.data.message.startsWith marker) = false →
    r = Settled.rejected (RejectValue.body e.data))

/-- A transport that reports the same outcome for every request. -/
def constT (r : TResult) : Transport := fun _ => r

/-- A concrete client (token `"abc"`). -/
def sampleClient : Client :=
  { endpoint := DEFAULT_ENDPOINT, token := "abc", version := "1.0.0",
    headers := mkHeaders "abc" "1.0.0" }

/-- A 404 failure. -/
def err404 : ErrResponse := ⟨404, ⟨"Database not found", []⟩⟩

/-- A non-404, non-marker failure. -/
def err500 : ErrResponse :=
  ⟨500, ⟨"Server exploded", [("reason", JsValue.str "disk")]⟩⟩

/-- A success envelope carrying a database. -/
def sampleDbBody : List (String × JsValue) :=
  [("status", JsValue.str "success"),
   ("database", JsValue.obj [("_id", JsValue.str "X"),
                             ("name", JsValue.str "Foo")])]

/-- A success envelope carrying a collection field. -/
def sampleFieldBody : List (String × JsValue) :=
  [("status", JsValue.str "success"),
   ("field", JsValue.obj [("_id", JsValue.str "F1"),
                          ("name", JsValue.str "Rating")])]

/-- A success envelope for `shareDatabase`. -/
def sampleShareBody : List (String × JsValue) :=
  [("status", JsValue.str "success"),
   ("message", JsValue.str "Database shared")]

/-- A success envelope for a database deletion, carrying counts. -/
def sampleDeleteBody : List (String × JsValue) :=
  [("status", JsValue.str "success"),
   ("databasesDeleted", JsValue.num 1),
   ("collectionsDeleted", JsValue.num 2),
   ("itemsDeleted", JsValue.num 5)]

/-- The immediate client-side rejection contract: the operation settles
rejected with the `CMSError` of `buildRequiredArgError`, hands no request
to the transport, and invokes no callback. -/
abbrev RejectsNoCall (r : OpRun) (name : String) : Prop :=
  r.result = Settled.rejected (RejectValue.cms (buildRequiredArgError name)) ∧
  r.requests = [] ∧ r.callbacks = []

/-- The collection-creation payload of the spec's end-to-end example:
`{name: "Teams", fields: [{name: "Rating", type: "Number"}]}`. -/
def sampleCollectionData : CollectionData :=
  { name := "Teams", slug := none,
    fields := [{ type := "Number", name := "Rating", required := none,
                 validations := none, helpText := none, primaryName := none,
                 primarySlug := none }] }

/-- C10: the private delete handler passes its query argument in the data
(body) position of `authenticatedFetch` and leaves the query-parameter
slot at its empty default, so every DELETE request carries the caller's
query mapping as its body and an empty parameter set — unlike GET, POST,
PUT and PATCH, which place the query in the params slot. -/
theorem delete_sends_query_as_body :
    ∀ (c : Client) (path : String) (query : List (String × JsValue))
      (d : JsValue),
      MyCMS.delete c path query =
        MyCMS.authenticatedFetch c Method.DELETE path (JsValue.obj query) [] ∧
      (MyCMS.delete c path query).data = JsValue.obj query ∧
      (MyCMS.delete c path query).params = [] ∧
      (MyCMS.get c path query).params = query ∧
      (MyCMS.get c path query).data = JsValue.bool false ∧
      (MyCMS.post c path d query).params = query ∧
      (MyCMS.post c path d query).data = d ∧
      (MyCMS.put c path d query).params = query ∧
      (MyCMS.put c path d query).data = d ∧
      (MyCMS.patch c path d query).params = query ∧
      (MyCMS.patch c path d query).data = d := by
  intro c path query d
  exact ⟨rfl, rfl, rfl, rfl, rfl, rfl, rfl, rfl, rfl, rfl, rfl⟩

/-- C3: `createFinalQuery` passes page, limit and sort through unchanged;
a present fields array is joined into a single comma-separated string
(order preserved, duplicates kept) and an absent fields yields no fields
key; concretely, encoding fields `["name","slug"]` with page 2 gives the
transport query `page=2, fields="name,slug"`, and encoding the empty
feature set gives the empty query. -/
theorem createFinalQuery_spec :
    ∀ q : QueryFeatures,
      (createFinalQuery q).page = q.page ∧
      (createFinalQuery q).limit = q.limit ∧
      (createFinalQuery q).sort = q.sort ∧
      (createFinalQuery q).fields = q.fields.map (String.intercalate ",") ∧
      finalQueryToObj
          (createFinalQuery ⟨some 2, none, none, some ["name", "slug"]⟩) =
        [("page", JsValue.num 2), ("fields", JsValue.str "name,slug")] ∧
      finalQueryToObj (createFinalQuery ⟨none, none, none, none⟩) = [] := by
  intro q
  refine ⟨?_, ?_, ?_, ?_, rfl, rfl⟩ <;>
    cases h : q.fields <;> simp [createFinalQuery, h]

/-- C2: every get-by-id operation (`getDatabaseById`, `getCollectionById`,
`getItem`, `getCollectionField`), given non-empty id arguments, resolves
to `null` on any transport failure (404 or otherwise) — a lookup never
rejects or propagates the error body. -/
theorem lookup_failure_returns_null :
    ∀ (c : Client) (t : Transport) (e : ErrResponse) (id1 id2 : String)
      (cb : Bool),
      (∀ r, t r = TResult.failure e) → id1 ≠ "" → id2 ≠ "" →
      (MyCMS.getDatabaseById c t id1).result =
        Settled.resolved JsValue.null ∧
      (MyCMS.getCollectionById c t id1).result =
        Settled.resolved JsValue.null ∧
      (MyCMS.getItem c t id1 id2).result = Settled.resolved JsValue.null ∧
      (MyCMS.getCollectionField c t id1 id2 cb).result =
        Settled.resolved JsValue.null := by
  intro c t e id1 id2 cb ht h1 h2
  refine ⟨?_, ?_, ?_, ?_⟩ <;>
    simp [MyCMS.getDatabaseById, MyCMS.getCollectionById, MyCMS.getItem,
      MyCMS.getCollectionField, ht, h1, h2]

/-- Witness for C2 at a concrete client, transport and ids. -/
theorem lookup_failure_returns_null_witness :
    (MyCMS.getDatabaseById sampleClient (constT (TResult.failure err500))
      "db1").result = Settled.resolved JsValue.null :=
  (lookup_failure_returns_null sampleClient (constT (TResult.failure err500))
    err500 "db1" "it1" true (fun _ => rfl) (by decide) (by decide)).1

/-- C1: every mutation-policy operation, on a transport failure, resolves
to `null` if and only if the HTTP status is 404 or the error message
starts with the resource marker (`"Invalid database"` for database
operations, `"Invalid _id"` for collection/item/field operations); every
other failure rejects with the server's raw decoded error body,
unchanged. -/
theorem mutation_policy_null_iff_marker :
    ∀ (c : Client) (t : Transport) (e : ErrResponse) (i1 i2 : String)
      (v : JsValue) (cb : Bool),
      (∀ r, t r = TResult.failure e) → i1 ≠ "" → i2 ≠ "" →
      jsFalsy v = false →
      MutationNullIff (MyCMS.updateDatabaseById c t i1 i2).result
        "Invalid database" e ∧
      MutationNullIff (MyCMS.deleteDatabaseById c t i1).result
        "Invalid database" e ∧
      MutationNullIff (MyCMS.updateCollectionById c t i1 v).result
        "Invalid _id" e ∧
      MutationNullIff (MyCMS.deleteCollectionById c t i1).result
        "Invalid _id" e ∧
      MutationNullIff (MyCMS.patchItemById c t i1 i2 v).result
        "Invalid _id" e ∧
      MutationNullIff (MyCMS.putItemById c t i1 i2 v).result
        "Invalid _id" e ∧
      MutationNullIff (MyCMS.deleteItemById c t i1 i2).result
        "Invalid _id" e ∧
      MutationNullIff (MyCMS.updateCollectionField c t i1 i2 v cb).result
        "Invalid _id" e ∧
      MutationNullIff (MyCMS.deleteCollectionField c t i1 i2 cb).result
        "Invalid _id" e := by
  intro c t e i1 i2 v cb ht h1 h2 hv
  refine ⟨?_, ?_, ?_, ?_, ?_, ?_, ?_, ?_, ?_⟩ <;>
  · cases hb : (e.status == 404 ||
        e.data.message.startsWith "Invalid database") <;>
    cases hb2 : (e.status == 404 ||
        e.data.message.startsWith "Invalid _id") <;>
    constructor <;>
    simp [MyCMS.updateDatabaseById, MyCMS.deleteDatabaseById,
      MyCMS.updateCollectionById, MyCMS.deleteCollectionById,
      MyCMS.patchItemById, MyCMS.putItemById, MyCMS.deleteItemById,
      MyCMS.updateCollectionField, MyCMS.deleteCollectionField,
      ht, h1, h2, hv, hb, hb2]

/-- Witness for C1: a 404 failure resolves `deleteDatabaseById` to null. -/
theorem mutation_policy_null_iff_marker_witness :
    (MyCMS.deleteDatabaseById sampleClient (constT (TResult.failure err404))
      "db1").result = Settled.resolved JsValue.null :=
  ((mutation_policy_null_iff_marker sampleClient
      (constT (TResult.failure err404)) err404 "db1" "nm" (JsValue.obj [])
      false (fun _ => rfl) (by decide) (by decide) rfl).2.1).1.mpr
    (by decide)

/-- Dropping a key from a decoded object and then reading that key yields
`undefined`: the key is really gone. -/
theorem jsGet_jsErase_self :
    ∀ (body : List (String × JsValue)) (key : String),
      jsGet (jsErase body key) key = JsValue.undef := by
  intro body key
  induction body with
  | nil => rfl
  | cons kv rest ih =>
      obtain ⟨k, v⟩ := kv
      by_cases h : k = key <;> simp [jsErase, jsGet, h, ih]

/-- Dropping one key leaves every other key's value verbatim. -/
theorem jsGet_jsErase_ne :
    ∀ (body : List (String × JsValue)) (key k : String), k ≠ key →
      jsGet (jsErase body key) k = jsGet body k := by
  intro body key k hk
  induction body with
  | nil => rfl
  | cons kv rest ih =>
      obtain ⟨k0, v⟩ := kv
      by_cases h0 : k0 = key
      · have hne : k0 ≠ k := fun hc => hk ((hc.symm.trans h0))
        simp [jsErase, jsGet, h0, hne, Ne.symm hk, ih]
      · by_cases he : k0 = k <;> simp [jsErase, jsGet, h0, he, hk, ih]

/-- C7: on every successful response each operation resolves to exactly
the sub-value under its expected payload key, never the envelope; each
delete operation resolves to the envelope with only the `status` key
removed — the remaining count keys verbatim (`shareDatabase` is governed
by the dedicated share policy instead and is covered separately). -/
theorem success_unwraps_payload_key :
    ∀ (c : Client) (t : Transport) (body : List (String × JsValue))
      (q : QueryFeatures) (s1 s2 : String) (v : JsValue)
      (d : CollectionData) (cb : Bool),
      (∀ r, t r = TResult.success body) → s1 ≠ "" → s2 ≠ "" →
      jsFalsy v = false →
      (MyCMS.getDatabases c t q).result =
        Settled.resolved (jsGet body "databases") ∧
      (MyCMS.getDatabaseById c t s1).result =
        Settled.resolved (jsGet body "database") ∧
      (MyCMS.createDatabase c t s1).result =
        Settled.resolved (jsGet body "database") ∧
      (MyCMS.updateDatabaseById c t s1 s2).result =
        Settled.resolved (jsGet body "database") ∧
      (MyCMS.getCollectionsByDatabaseId c t s1).result =
        Settled.resolved (jsGet body "collections") ∧
      (MyCMS.getCollectionById c t s1).result =
        Settled.resolved (jsGet body "collection") ∧
      (MyCMS.createCollectionByDatabaseId c t s1 (some d)).result =
        Settled.resolved (jsGet body "collection") ∧
      (MyCMS.updateCollectionById c t s1 v).result =
        Settled.resolved (jsGet body "collection") ∧
      (MyCMS.getItemsByCollectionId c t s1 q).result =
        Settled.resolved (jsGet body "items") ∧
      (MyCMS.getItem c t s1 s2).result =
        Settled.resolved (jsGet body "item") ∧
      (MyCMS.createItem c t s1 v).result =
        Settled.resolved (jsGet body "item") ∧
      (MyCMS.patchItemById c t s1 s2 v).result =
        Settled.resolved (jsGet body "item") ∧
      (MyCMS.putItemById c t s1 s2 v).result =
        Settled.resolved (jsGet body "item") ∧
      (MyCMS.getCollectionFields c t s1 cb).result =
        Settled.resolved (jsGet body "fields") ∧
      (MyCMS.getCollectionField c t s1 s2 cb).result =
        Settled.resolved (jsGet body "field") ∧
      (MyCMS.createCollectionField c t s1 v cb).result =
        Settled.resolved (jsGet body "field") ∧
      (MyCMS.updateCollectionField c t s1 s2 v cb).result =
        Settled.resolved (jsGet body "field") ∧
      (MyCMS.getMe c t cb).result =
        Settled.resolved (jsGet body "user") ∧
      (MyCMS.deleteDatabaseById c t s1).result =
        Settled.resolved (JsValue.obj (jsErase body "status")) ∧
      (MyCMS.deleteCollectionById c t s1).result =
        Settled.resolved (JsValue.obj (jsErase body "status")) ∧
      (MyCMS.deleteItemById c t s1 s2).result =
        Settled.resolved (JsValue.obj (jsErase body "status")) ∧
      (MyCMS.deleteCollectionField c t s1 s2 cb).result =
        Settled.resolved (JsValue.obj (jsErase body "status")) ∧
      jsGet (jsErase body "status") "status" = JsValue.undef ∧
      (∀ k, k ≠ "status" →
        jsGet (jsErase body "status") k = jsGet body k) := by
  intro c t body q s1 s2 v d cb ht h1 h2 hv
  refine ⟨?_, ?_, ?_, ?_, ?_, ?_, ?_, ?_, ?_, ?_, ?_, ?_, ?_, ?_, ?_, ?_,
    ?_, ?_, ?_, ?_, ?_, ?_, jsGet_jsErase_self body "status",
    fun k hks => jsGet_jsErase_ne body "status" k hks⟩ <;>
    simp [MyCMS.getDatabases, MyCMS.getDatabaseById, MyCMS.createDatabase,
      MyCMS.updateDatabaseById, MyCMS.getCollectionsByDatabaseId,
      MyCMS.getCollectionById, MyCMS.createCollectionByDatabaseId,
      MyCMS.updateCollectionById, MyCMS.getItemsByCollectionId,
      MyCMS.getItem, MyCMS.createItem, MyCMS.patchItemById,
      MyCMS.putItemById, MyCMS.getCollectionFields,
      MyCMS.getCollectionField, MyCMS.createCollectionField,
      MyCMS.updateCollectionField, MyCMS.getMe, MyCMS.deleteDatabaseById,
      MyCMS.deleteCollectionById, MyCMS.deleteItemById,
      MyCMS.deleteCollectionField, ht, h1, h2, hv]

/-- Witness for C7: the end-to-end example — a 200 envelope
`{status:"success", database:{_id:"X", name:"Foo"}}` makes
`getDatabaseById` return the inner database object exactly. -/
theorem success_unwraps_payload_key_witness :
    (MyCMS.getDatabaseById sampleClient (constT (TResult.success sampleDbBody))
      "X").result = Settled.resolved (jsGet sampleDbBody "database") :=
  (success_unwraps_payload_key sampleClient
    (constT (TResult.success sampleDbBody)) sampleDbBody
    ⟨none, none, none, none⟩ "X" "nm" (JsValue.obj []) sampleCollectionData
    false (fun _ => rfl) (by decide) (by decide) rfl).2.1

/-- C4 (amended): every required-argument check tests JS falsiness — a
missing (`undefined`/`null`) argument or an empty string rejects
immediately with the `MissingArgument` error of `buildRequiredArgError`,
before any request is built and with no transport call; the checks run in
declaration order.  (An empty object passes the check — see the
counterexample.) -/
theorem required_arg_falsy_rejects :
    ∀ (c : Client) (t : Transport) (s1 s2 : String) (u : JsValue)
      (q : QueryFeatures) (dOpt : Option CollectionData) (cb : Bool)
      (ver : Option String),
      s1 ≠ "" → s2 ≠ "" → jsFalsy u = true →
      mkClient none ver = Except.error (buildRequiredArgError "token") ∧
      mkClient (some "") ver =
        Except.error (buildRequiredArgError "token") ∧
      RejectsNoCall (MyCMS.getDatabaseById c t "") "database_id" ∧
      RejectsNoCall (MyCMS.createDatabase c t "") "name" ∧
      RejectsNoCall (MyCMS.deleteDatabaseById c t "") "database_id" ∧
      RejectsNoCall (MyCMS.shareDatabase c t "" s1 s2) "database_id" ∧
      RejectsNoCall (MyCMS.shareDatabase c t s1 "" s2) "email" ∧
      RejectsNoCall (MyCMS.shareDatabase c t s1 s2 "") "role" ∧
      RejectsNoCall (MyCMS.updateDatabaseById c t "" s1) "database_id" ∧
      RejectsNoCall (MyCMS.updateDatabaseById c t s1 "") "name" ∧
      RejectsNoCall (MyCMS.getCollectionsByDatabaseId c t "")
        "database_id" ∧
      RejectsNoCall (MyCMS.getCollectionById c t "") "collection_id" ∧
      RejectsNoCall (MyCMS.createCollectionByDatabaseId c t "" dOpt)
        "database_id" ∧
      RejectsNoCall (MyCMS.createCollectionByDatabaseId c t s1 none)
        "data" ∧
      RejectsNoCall (MyCMS.updateCollectionById c t "" u)
        "collection_id" ∧
      RejectsNoCall (MyCMS.updateCollectionById c t s1 u) "update" ∧
      RejectsNoCall (MyCMS.deleteCollectionById c t "") "collection_id" ∧
      RejectsNoCall (MyCMS.getItemsByCollectionId c t "" q)
        "collection_id" ∧
      RejectsNoCall (MyCMS.getItem c t "" s2) "collection_id" ∧
      RejectsNoCall (MyCMS.getItem c t s1 "") "item_id" ∧
      RejectsNoCall (MyCMS.createItem c t "" u) "collection_id" ∧
      RejectsNoCall (MyCMS.createItem c t s1 u) "data" ∧
      RejectsNoCall (MyCMS.patchItemById c t "" s2 u) "collection_id" ∧
      RejectsNoCall (MyCMS.patchItemById c t s1 "" u) "item_id" ∧
      RejectsNoCall (MyCMS.patchItemById c t s1 s2 u) "fields" ∧
      RejectsNoCall (MyCMS.putItemById c t "" s2 u) "collection_id" ∧
      RejectsNoCall (MyCMS.putItemById c t s1 "" u) "item_id" ∧
      RejectsNoCall (MyCMS.putItemById c t s1 s2 u) "fields" ∧
      RejectsNoCall (MyCMS.deleteItemById c t "" s2) "collection_id" ∧
      RejectsNoCall (MyCMS.deleteItemById c t s1 "") "item_id" ∧
      RejectsNoCall (MyCMS.getCollectionFields c t "" cb)
        "collection_id" ∧
      RejectsNoCall (MyCMS.getCollectionField c t "" s2 cb)
        "collection_id" ∧
      RejectsNoCall (MyCMS.getCollectionField c t s1 "" cb) "field_id" ∧
      RejectsNoCall (MyCMS.createCollectionField c t "" u cb)
        "collection_id" ∧
      RejectsNoCall (MyCMS.createCollectionField c t s1 u cb) "data" ∧
      RejectsNoCall (MyCMS.updateCollectionField c t "" s2 u cb)
        "collection_id" ∧
      RejectsNoCall (MyCMS.updateCollectionField c t s1 "" u cb)
        "field_id" ∧
      RejectsNoCall (MyCMS.updateCollectionField c t s1 s2 u cb)
        "fields" ∧
      RejectsNoCall (MyCMS.deleteCollectionField c t "" s2 cb)
        "collection_id" ∧
      RejectsNoCall (MyCMS.deleteCollectionField c t s1 "" cb)
        "field_id" := by
  intro c t s1 s2 u q dOpt cb ver h1 h2 hu
  and_intros <;>
    simp [mkClient, MyCMS.getDatabaseById, MyCMS.createDatabase,
      MyCMS.deleteDatabaseById, MyCMS.shareDatabase,
      MyCMS.updateDatabaseById, MyCMS.getCollectionsByDatabaseId,
      MyCMS.getCollectionById, MyCMS.createCollectionByDatabaseId,
      MyCMS.updateCollectionById, MyCMS.deleteCollectionById,
      MyCMS.getItemsByCollectionId, MyCMS.getItem, MyCMS.createItem,
      MyCMS.patchItemById, MyCMS.putItemById, MyCMS.deleteItemById,
      MyCMS.getCollectionFields, MyCMS.getCollectionField,
      MyCMS.createCollectionField, MyCMS.updateCollectionField,
      MyCMS.deleteCollectionField, h1, h2, hu]

/-- Witness for C4 (amended): an empty `collection_id` makes `getItem`
reject with `MissingArgument("collection_id")` and no transport call. -/
theorem required_arg_falsy_rejects_witness :
    RejectsNoCall (MyCMS.getItem sampleClient
      (constT (TResult.failure err500)) "" "it1") "collection_id" :=
  (required_arg_falsy_rejects sampleClient (constT (TResult.failure err500))
    "c1" "it1" JsValue.null ⟨none, none, none, none⟩ none false none
    (by decide) (by decide) rfl).2.2.2.2.2.2.2.2.2.2.2.2.2.2.2.2.2.2.1

/-- Counterexample for C4 as stated: an empty object is a JS-truthy value,
so `updateCollectionField` with the empty `fields` object `{}` (a valid
`Partial<CollectionField>`) does NOT reject with `MissingArgument` — it
performs the transport call and resolves with the server's field. -/
theorem required_arg_empty_object_cex :
    (MyCMS.updateCollectionField sampleClient
      (constT (TResult.success sampleFieldBody)) "c1" "f1"
      (JsValue.obj []) false).requests.length = 1 ∧
    (MyCMS.updateCollectionField sampleClient
      (constT (TResult.success sampleFieldBody)) "c1" "f1"
      (JsValue.obj []) false).result =
      Settled.resolved (JsValue.obj
        [("_id", JsValue.str "F1"), ("name", JsValue.str "Rating")]) :=
  ⟨rfl, rfl⟩

/-- C5: `shareDatabase` never raises once its arguments pass validation —
the promise always resolves; a successful share resolves to
`{shared: true, message}` with the message taken from the success
envelope, and a failing share resolves to `{shared: false, message}` with
the message extracted from the error body. -/
theorem shareDatabase_never_raises :
    ∀ (c : Client) (t : Transport) (did em rl : String),
      did ≠ "" → em ≠ "" → rl ≠ "" →
      (∃ v, (MyCMS.shareDatabase c t did em rl).result =
        Settled.resolved v) ∧
      (∀ body, (∀ r, t r = TResult.success body) →
        (MyCMS.shareDatabase c t did em rl).result =
          Settled.resolved (JsValue.obj
            [("shared", JsValue.bool true),
             ("message", jsGet body "message")])) ∧
      (∀ e, (∀ r, t r = TResult.failure e) →
        (MyCMS.shareDatabase c t did em rl).result =
          Settled.resolved (JsValue.obj
            [("shared", JsValue.bool false),
             ("message", JsValue.str e.data.message)])) := by
  intro c t did em rl h1 h2 h3
  refine ⟨?_, ?_, ?_⟩
  · cases hres : t (MyCMS.post c ("/databases/" ++ did ++ "/share")
        (JsValue.obj [("email", JsValue.str em), ("role", JsValue.str rl)])
        []) with
    | success body =>
        exact ⟨JsValue.obj [("shared", JsValue.bool true),
          ("message", jsGet body "message")],
          by simp [MyCMS.shareDatabase, h1, h2, h3, hres]⟩
    | failure e =>
        exact ⟨JsValue.obj [("shared", JsValue.bool false),
          ("message", JsValue.str e.data.message)],
          by simp [MyCMS.shareDatabase, h1, h2, h3, hres]⟩
  · intro body hb
    simp [MyCMS.shareDatabase, h1, h2, h3, hb]
  · intro e he
    simp [MyCMS.shareDatabase, h1, h2, h3, he]

/-- Witness for C5: sharing against a succeeding transport resolves to
`{shared: true, message: "Database shared"}`. -/
theorem shareDatabase_never_raises_witness :
    (MyCMS.shareDatabase sampleClient
      (constT (TResult.success sampleShareBody)) "d1" "a@b.c"
      "viewer").result =
      Settled.resolved (JsValue.obj
        [("shared", JsValue.bool true),
         ("message", jsGet sampleShareBody "message")]) :=
  (shareDatabase_never_raises sampleClient
    (constT (TResult.success sampleShareBody)) "d1" "a@b.c" "viewer"
    (by decide) (by decide) (by decide)).2.1 sampleShareBody (fun _ => rfl)

/-- Spreading a `CollectionData` object onto `{database: id}` only appends:
no `CollectionData` key collides with `database`, so the injected id is
kept and every caller key passes through verbatim. -/
theorem jsSpread_database_collectionData :
    ∀ (did : String) (d : CollectionData),
      jsSpread [("database", JsValue.str did)] d.toEntries =
        ("database", JsValue.str did) :: d.toEntries := by
  intro did d
  obtain ⟨n, s, fs⟩ := d
  cases s <;> rfl

/-- C6: `createCollectionByDatabaseId`, for non-empty `database_id` and
present `data`, sends exactly one POST to `/collections` whose body is
`data` with the key `database` bound to `database_id` injected in front
and every other key of `data` passed through unmodified; on success it
resolves to the unwrapped `collection` payload and on any failure it
rejects with the server's raw decoded error body — no null outcome. -/
theorem createCollection_injects_database_id :
    ∀ (c : Client) (t : Transport) (did : String) (d : CollectionData),
      did ≠ "" →
      (MyCMS.createCollectionByDatabaseId c t did (some d)).requests =
        [MyCMS.post c "/collections"
          (JsValue.obj (("database", JsValue.str did) :: d.toEntries))
          []] ∧
      jsGet (("database", JsValue.str did) :: d.toEntries) "database" =
        JsValue.str did ∧
      (∀ body, (∀ r, t r = TResult.success body) →
        (MyCMS.createCollectionByDatabaseId c t did (some d)).result =
          Settled.resolved (jsGet body "collection")) ∧
      (∀ e, (∀ r, t r = TResult.failure e) →
        (MyCMS.createCollectionByDatabaseId c t did (some d)).result =
          Settled.rejected (RejectValue.body e.data)) := by
  intro c t did d h1
  refine ⟨?_, rfl, ?_, ?_⟩
  · cases hres : t (MyCMS.post c "/collections"
        (JsValue.obj (jsSpread [("database", JsValue.str did)]
          d.toEntries)) []) with
    | success body =>
        rw [jsSpread_database_collectionData] at hres
        simp [MyCMS.createCollectionByDatabaseId, h1, hres,
          jsSpread_database_collectionData]
    | failure e =>
        rw [jsSpread_database_collectionData] at hres
        simp [MyCMS.createCollectionByDatabaseId, h1, hres,
          jsSpread_database_collectionData]
  · intro body hb
    simp [MyCMS.createCollectionByDatabaseId, h1, hb]
  · intro e he
    simp [MyCMS.createCollectionByDatabaseId, h1, he]

/-- Witness for C6: the spec's end-to-end example — the request body is
`{database: "D1", name: "Teams", fields: [{type:"Number",
name:"Rating"}]}`. -/
theorem createCollection_injects_database_id_witness :
    (MyCMS.createCollectionByDatabaseId sampleClient
      (constT (TResult.success sampleFieldBody)) "D1"
      (some sampleCollectionData)).requests =
      [MyCMS.post sampleClient "/collections"
        (JsValue.obj (("database", JsValue.str "D1") ::
          sampleCollectionData.toEntries)) []] :=
  (createCollection_injects_database_id sampleClient
    (constT (TResult.success sampleFieldBody)) "D1" sampleCollectionData
    (by decide)).1

/-- C8 (amended): the list operations `getDatabases`,
`getCollectionsByDatabaseId` and `getItemsByCollectionId` propagate any
transport failure to the caller as-is (the raw axios error, uncaught) and
never resolve to null; `getCollectionFields` is the exception — despite
being a list operation it suppresses every failure, resolving to `null`
and invoking any provided callback with `(null, null)`. -/
theorem list_ops_propagate_failures :
    ∀ (c : Client) (t : Transport) (e : ErrResponse) (q : QueryFeatures)
      (s1 : String) (cb : Bool),
      (∀ r, t r = TResult.failure e) → s1 ≠ "" →
      (MyCMS.getDatabases c t q).result =
        Settled.rejected (RejectValue.axiosErr e) ∧
      (MyCMS.getCollectionsByDatabaseId c t s1).result =
        Settled.rejected (RejectValue.axiosErr e) ∧
      (MyCMS.getItemsByCollectionId c t s1 q).result =
        Settled.rejected (RejectValue.axiosErr e) ∧
      (MyCMS.getCollectionFields c t s1 cb).result =
        Settled.resolved JsValue.null ∧
      (MyCMS.getCollectionFields c t s1 cb).callbacks =
        tryCallback cb none JsValue.null := by
  intro c t e q s1 cb ht h1
  refine ⟨?_, ?_, ?_, ?_, ?_⟩ <;>
    simp [MyCMS.getDatabases, MyCMS.getCollectionsByDatabaseId,
      MyCMS.getItemsByCollectionId, MyCMS.getCollectionFields, ht, h1]

/-- Witness for C8 (amended): `getDatabases` against a failing transport
rejects with the raw axios error. -/
theorem list_ops_propagate_failures_witness :
    (MyCMS.getDatabases sampleClient (constT (TResult.failure err500))
      ⟨none, none, none, none⟩).result =
      Settled.rejected (RejectValue.axiosErr err500) :=
  (list_ops_propagate_failures sampleClient (constT (TResult.failure err500))
    err500 ⟨none, none, none, none⟩ "c1" false (fun _ => rfl)
    (by decide)).1

/-- Counterexample for C8 as stated: `getCollectionFields` — a list
operation — does NOT propagate a transport failure: against a transport
failing with a 500 it resolves to `null` instead of rejecting. -/
theorem getCollectionFields_suppresses_failure_cex :
    (MyCMS.getCollectionFields sampleClient (constT (TResult.failure err500))
      "c1" false).result = Settled.resolved JsValue.null ∧
    (MyCMS.getCollectionFields sampleClient (constT (TResult.failure err500))
      "c1" false).result ≠
      Settled.rejected (RejectValue.axiosErr err500) :=
  ⟨rfl, fun h => Settled.noConfusion h⟩

/-- C9 (amended): each field-level operation given a callback invokes it
exactly once per transport-reaching call: on success with
`(null, result)`; on failure, `getCollectionFields` and
`getCollectionField` always — and `updateCollectionField` /
`deleteCollectionField` in their not-found branch — invoke it with
`(null, null)` mirroring the null return, while all propagating failures
invoke it with `(errorBody, null)`; calls rejected by required-argument
validation never invoke the callback, nor is any callback invoked when
none is provided. -/
theorem callback_invocation_policy :
    ∀ (c : Client) (ts tf : Transport) (body : List (String × JsValue))
      (e : ErrResponse) (s1 s2 : String) (v : JsValue),
      (∀ r, ts r = TResult.success body) →
      (∀ r, tf r = TResult.failure e) →
      s1 ≠ "" → s2 ≠ "" → jsFalsy v = false →
      (MyCMS.getCollectionFields c ts s1 true).callbacks =
        [⟨none, jsGet body "fields"⟩] ∧
      (MyCMS.getCollectionField c ts s1 s2 true).callbacks =
        [⟨none, jsGet body "field"⟩] ∧
      (MyCMS.createCollectionField c ts s1 v true).callbacks =
        [⟨none, jsGet body "field"⟩] ∧
      (MyCMS.updateCollectionField c ts s1 s2 v true).callbacks =
        [⟨none, jsGet body "field"⟩] ∧
      (MyCMS.deleteCollectionField c ts s1 s2 true).callbacks =
        [⟨none, JsValue.obj (jsErase body "status")⟩] ∧
      (MyCMS.getMe c ts true).callbacks = [⟨none, jsGet body "user"⟩] ∧
      (MyCMS.getCollectionFields c tf s1 true).callbacks =
        [⟨none, JsValue.null⟩] ∧
      (MyCMS.getCollectionField c tf s1 s2 true).callbacks =
        [⟨none, JsValue.null⟩] ∧
      (MyCMS.createCollectionField c tf s1 v true).callbacks =
        [⟨some e.data, JsValue.null⟩] ∧
      ((e.status == 404 ||
          e.data.message.startsWith "Invalid _id") = true →
        (MyCMS.updateCollectionField c tf s1 s2 v true).callbacks =
          [⟨none, JsValue.null⟩] ∧
        (MyCMS.deleteCollectionField c tf s1 s2 true).callbacks =
          [⟨none, JsValue.null⟩]) ∧
      ((e.status == 404 ||
          e.data.message.startsWith "Invalid _id") = false →
        (MyCMS.updateCollectionField c tf s1 s2 v true).callbacks =
          [⟨some e.data, JsValue.null⟩] ∧
        (MyCMS.deleteCollectionField c tf s1 s2 true).callbacks =
          [⟨some e.data, JsValue.null⟩]) ∧
      (MyCMS.getMe c tf true).callbacks = [⟨some e.data, JsValue.null⟩] ∧
      (MyCMS.getCollectionFields c tf "" true).callbacks = [] ∧
      (MyCMS.getCollectionField c tf "" s2 true).callbacks = [] ∧
      (MyCMS.createCollectionField c tf "" v true).callbacks = [] ∧
      (MyCMS.updateCollectionField c tf "" s2 v true).callbacks = [] ∧
      (MyCMS.deleteCollectionField c tf "" s2 true).callbacks = [] ∧
      (MyCMS.getCollectionField c ts s1 s2 false).callbacks = [] := by
  intro c ts tf body e s1 s2 v hts htf h1 h2 hv
  and_intros <;>
  first
  | (intro hb
     and_intros <;>
       simp [MyCMS.updateCollectionField, MyCMS.deleteCollectionField,
         tryCallback, htf, h1, h2, hv, hb])
  | simp [MyCMS.getCollectionFields, MyCMS.getCollectionField,
      MyCMS.createCollectionField, MyCMS.updateCollectionField,
      MyCMS.deleteCollectionField, MyCMS.getMe, tryCallback, hts, htf,
      h1, h2, hv]

/-- Witness for C9 (amended): a successful `getMe` with a callback invokes
it once with `(null, user)`. -/
theorem callback_invocation_policy_witness :
    (MyCMS.getMe sampleClient (constT (TResult.success sampleDbBody))
      true).callbacks = [⟨none, jsGet sampleDbBody "user"⟩] :=
  (callback_invocation_policy sampleClient
    (constT (TResult.success sampleDbBody))
    (constT (TResult.failure err500)) sampleDbBody err500 "c1" "f1"
    (JsValue.obj []) (fun _ => rfl) (fun _ => rfl) (by decide) (by decide)
    rfl).2.2.2.2.2.1

/-- Counterexample for C9 as stated: `getCollectionField` with a callback,
against a transport failing with a 500 error body, invokes the callback
with `(null, null)` — not with `(errorBody, null)` as the claim
requires. -/
theorem callback_failure_err_slot_cex :
    (MyCMS.getCollectionField sampleClient (constT (TResult.failure err500))
      "c1" "f1" true).callbacks = [⟨none, JsValue.null⟩] ∧
    (MyCMS.getCollectionField sampleClient (constT (TResult.failure err500))
      "c1" "f1" true).callbacks ≠ [⟨some err500.data, JsValue.null⟩] :=
  ⟨rfl, fun h => by
    rw [show (MyCMS.getCollectionField sampleClient
      (constT (TResult.failure err500)) "c1" "f1" true).callbacks =
      [(⟨none, JsValue.null⟩ : CBCall)] from rfl] at h
    simp at h⟩

end CMSSDK
